import Mathlib

/-!
Shallow embedding of the ZenC stress/attack simulator programs and proofs of
the spec's testable properties against them.

Each C program is a standalone `main` running a scripted sequence of phases.
We embed each program as a pure Lean function of an explicit environment
oracle (success or failure of each fallible OS call: `malloc`,
`pthread_create`, `open`, `fork`, `socket`/`connect`, and the byte count
returned by each `fwrite`), returning a record of the observable outcome:
counters, cleanup actions, diagnostic messages, exit code.  Unbounded
`while (1)` loops are embedded with an explicit fuel argument; a `none`
first component means the loop is still running after `fuel` iterations.
-/

/-- `MB` from the C sources: `#define MB (1024 * 1024)`. -/
def MB : Nat := 1024 * 1024

namespace ForkBombGradual

/-! Embedding of `src/ml_anomaly_tests/fork_bomb_gradual.c`.

The program takes one optional positional argument (parsed with `atoi`, so
non-numeric text becomes `0`); we embed the parsed integer directly.
`ok i` tells whether the `pthread_create` call targeting slot `i` of the
global `threads[MAX_THREADS]` array succeeds. -/

/-- The C constant `#define MAX_THREADS 80`. -/
def MAX_THREADS : Int := 80

/-- The effective `max_threads` after the `argc > 1` branch of `main`:
`atoi`, then clamp above to `MAX_THREADS`, then clamp below to `5`. -/
def max_threads (arg : Option Int) : Int :=
  match arg with
  | none => MAX_THREADS
  | some a =>
    let m := if a > MAX_THREADS then MAX_THREADS else a
    if m < 5 then 5 else m

/-- Loop state: the slot indices successfully created (in order) and the
`created_threads` counter. -/
structure St where
  created : List Nat
  created_threads : Nat
  deriving DecidableEq, Repr

/-- Phase 1, `for (i = 0; i < 5 && i < max_threads; i++)`: on success the
counter is incremented; on failure the loop just continues (no message, no
break). -/
def phase1 (ok : Nat → Bool) (maxN : Nat) : St :=
  (List.range (min 5 maxN)).foldl
    (fun s i =>
      if ok i then
        { created := s.created ++ [i], created_threads := s.created_threads + 1 }
      else s)
    ⟨[], 0⟩

/-- Phase 2 body over the remaining slot indices: on success increment the
counter, on failure print the diagnostic and `break`.  The returned `Bool`
records whether the failure diagnostic was printed. -/
def phase2 (ok : Nat → Bool) : List Nat → St → St × Bool
  | [], s => (s, false)
  | i :: rest, s =>
    if ok i then
      phase2 ok rest
        { created := s.created ++ [i], created_threads := s.created_threads + 1 }
    else (s, true)

/-- Observable outcome of a run of `main`. -/
structure Result where
  created : List Nat
  created_threads : Nat
  failMsg : Bool
  joined : List Nat
  exitCode : Nat
  deriving DecidableEq, Repr

/-- The whole of `main`: clamp the argument, run phase 1 over slots
`0..4`, phase 2 over slots `5..max_threads-1`, then the cleanup loop
`for (i = 0; i < created_threads; i++) pthread_join(threads[i], NULL)`,
and `return 0`. -/
def run (arg : Option Int) (ok : Nat → Bool) : Result :=
  let maxN : Nat := (max_threads arg).toNat
  let s1 := phase1 ok maxN
  let (s2, fm) := phase2 ok (List.range' 5 (maxN - 5)) s1
  { created := s2.created
    created_threads := s2.created_threads
    failMsg := fm
    joined := List.range s2.created_threads
    exitCode := 0 }

end ForkBombGradual

namespace MemoryLeakProgressive

/-! Embedding of `src/ml_anomaly_tests/memory_leak_progressive.c`.

`void* allocations[30]` is a stack array that starts out uninitialized; we
model it as a function from index to `Slot`, where `Slot.uninit` is an
indeterminate stack residue.  `ok i` says whether the `malloc` in iteration
`i` of the allocation loop succeeds; `junk i` gives the indeterminate word
the cleanup loop reads from slot `i` when the slot was never written
(`0` plays the role of `NULL`). -/

/-- Contents of one entry of `allocations[30]`. -/
inductive Slot where
  | uninit : Slot
  | null : Slot
  | block (i : Nat) : Slot
  deriving DecidableEq, Repr

/-- State of the allocation loop: array contents, `total_allocated`,
whether the allocation-failure diagnostic was printed, and the sizes of the
successful allocations in order. -/
structure St where
  allocations : Nat → Slot
  total_allocated : Nat
  failMsg : Bool
  allocSizes : List Nat

/-- The allocation loop `for (i = 0; i < 25; i++)` with
`alloc_size = (i + 1) * 5 * MB`: on success store the block and keep going;
on failure store the NULL that `malloc` returned, print the diagnostic and
`break`. -/
def allocLoop (ok : Nat → Bool) : List Nat → St → St
  | [], s => s
  | i :: rest, s =>
    if ok i then
      allocLoop ok rest
        { allocations := Function.update s.allocations i (Slot.block i)
          total_allocated := s.total_allocated + (i + 1) * 5 * MB
          failMsg := s.failMsg
          allocSizes := s.allocSizes ++ [(i + 1) * 5 * MB] }
    else
      { s with allocations := Function.update s.allocations i Slot.null, failMsg := true }

/-- The truthiness test `if (allocations[i])` of the cleanup loop: a stored
block is non-NULL, a stored NULL is false, and an unwritten slot reads the
indeterminate residue `junk i`. -/
def truthy (junk : Nat → Nat) (i : Nat) : Slot → Bool
  | Slot.uninit => junk i != 0
  | Slot.null => false
  | Slot.block _ => true

/-- Observable outcome of a run of `main`. -/
structure Result where
  allocations : Nat → Slot
  total_allocated : Nat
  failMsg : Bool
  allocSizes : List Nat
  cleanupScanned : List Nat
  freedIndices : List Nat
  freeCalls : Nat
  exitCode : Nat

/-- The whole of `main`: the 25-iteration allocation loop over the
30-entry array, then the cleanup loop `for (i = 0; i < 30; i++)
if (allocations[i]) free(allocations[i])`, and `return 0`.
`freedIndices` is the list of indices whose entry passed the truthiness
test, i.e. on which `free` was called. -/
def run (ok : Nat → Bool) (junk : Nat → Nat) : Result :=
  let s := allocLoop ok (List.range 25)
    { allocations := fun _ => Slot.uninit, total_allocated := 0
      failMsg := false, allocSizes := [] }
  let scanned := List.range 30
  let freed := scanned.filter (fun i => truthy junk i (s.allocations i))
  { allocations := s.allocations
    total_allocated := s.total_allocated
    failMsg := s.failMsg
    allocSizes := s.allocSizes
    cleanupScanned := scanned
    freedIndices := freed
    freeCalls := freed.length
    exitCode := 0 }

end MemoryLeakProgressive

namespace ResourceExhaustionCombo

/-! Embedding of `src/ml_anomaly_tests/resource_exhaustion_combo.c`.

Oracles: `mOk k` is the result of the `k`-th `malloc` call, `tOk k` of the
`k`-th `pthread_create` call, `fOk k` of the `k`-th `open` call. -/

/-- The C constant `#define MAX_THREADS 60`. -/
def MAX_THREADS : Nat := 60

/-- The C constant `#define MAX_FILES 100`. -/
def MAX_FILES : Nat := 100

/-- Attack-loop state: the three resource counters, how many times each
fallible call was made, the successful allocation sizes in order, the
thread slots successfully created in order, the leak slots written in
order, the number of failure diagnostics printed (the source prints none:
every failure branch is empty), and the number of completed iterations. -/
structure St where
  leak_count : Nat
  thread_count : Nat
  file_count : Nat
  mAttempts : Nat
  tAttempts : Nat
  fAttempts : Nat
  allocSizes : List Nat
  createdSlots : List Nat
  leakSlots : List Nat
  errMsgs : Nat
  iters : Nat
  deriving DecidableEq, Repr

/-- Initial state of `main` before the attack loop. -/
def init : St :=
  { leak_count := 0, thread_count := 0, file_count := 0
    mAttempts := 0, tAttempts := 0, fAttempts := 0
    allocSizes := [], createdSlots := [], leakSlots := []
    errMsgs := 0, iters := 0 }

/-- The inner thread burst
`for (j = 0; j < 3 && thread_count < MAX_THREADS; j++)`: each pass makes
one `pthread_create(&threads[thread_count], ...)` attempt and increments
`thread_count` only on success (failures are silently skipped). -/
def threadBurst (tOk : Nat → Bool) : Nat → St → St
  | 0, s => s
  | j + 1, s =>
    if s.thread_count < MAX_THREADS then
      if tOk s.tAttempts then
        threadBurst tOk j
          { s with thread_count := s.thread_count + 1
                   tAttempts := s.tAttempts + 1
                   createdSlots := s.createdSlots ++ [s.thread_count] }
      else threadBurst tOk j { s with tAttempts := s.tAttempts + 1 }
    else s

/-- One iteration `i` of the 20-iteration attack loop: attack vector 1
(`i % 2 == 0`: one `malloc((leak_count + 1) * 8 * MB)` stored at slot
`leak_count`, counter bumped only on success, failure silently skipped),
attack vector 2 (`i % 3 == 0`: the thread burst), attack vector 3
(`i % 2 == 1`: one `open` at slot `file_count`, counter bumped only on
success, failure silently skipped). -/
def comboIter (mOk tOk fOk : Nat → Bool) (s : St) (i : Nat) : St :=
  let s1 :=
    if i % 2 = 0 ∧ s.leak_count < 30 then
      if mOk s.mAttempts then
        { s with leak_count := s.leak_count + 1
                 mAttempts := s.mAttempts + 1
                 allocSizes := s.allocSizes ++ [(s.leak_count + 1) * 8 * MB]
                 leakSlots := s.leakSlots ++ [s.leak_count] }
      else { s with mAttempts := s.mAttempts + 1 }
    else s
  let s2 :=
    if i % 3 = 0 ∧ s1.thread_count < MAX_THREADS then threadBurst tOk 3 s1 else s1
  let s3 :=
    if i % 2 = 1 ∧ s2.file_count < MAX_FILES then
      if fOk s2.fAttempts then
        { s2 with file_count := s2.file_count + 1, fAttempts := s2.fAttempts + 1 }
      else { s2 with fAttempts := s2.fAttempts + 1 }
    else s2
  { s3 with iters := s3.iters + 1 }

/-- Observable outcome of a run of `main`. -/
structure Result where
  final : St
  joined : List Nat
  freed : List Nat
  closedFds : List Nat
  unlinked : List Nat
  exitCode : Nat
  deriving DecidableEq, Repr

/-- The whole of `main`: the attack loop `for (i = 0; i < 20; i++)`, then
the cleanup loops: join threads `0 .. thread_count - 1`, free leaks
`0 .. leak_count - 1`, close and unlink files `0 .. file_count - 1`, and
`return 0`. -/
def run (mOk tOk fOk : Nat → Bool) : Result :=
  let s := (List.range 20).foldl (comboIter mOk tOk fOk) init
  { final := s
    joined := List.range s.thread_count
    freed := List.range s.leak_count
    closedFds := List.range s.file_count
    unlinked := List.range s.file_count
    exitCode := 0 }

end ResourceExhaustionCombo

namespace IoStormWriter

/-! Embedding of `src/ml_anomaly_tests/io_storm_writer.c`.

`w k` is the byte count returned by the `k`-th `fwrite` call (the program
makes calls `0..2` in phase 1, `3..152` in the 150-iteration attack phase,
and `153..155` in phase 3; only the attack phase accumulates
`total_written`). -/

/-- The C constant `#define CHUNK_SIZE (1 * MB)`. -/
def CHUNK_SIZE : Nat := 1 * MB

/-- Observable outcome of a run of `main`. -/
structure Result where
  total_written : Nat
  attackIters : Nat
  unlinked : Bool
  errMsg : Bool
  exitCode : Nat
  deriving DecidableEq, Repr

/-- The whole of `main`: buffer `malloc`, `fopen` of the PID-named temp
file (each exiting with code 1 on failure), the three write phases with
`total_written += fwrite(...)` only in the attack loop
`for (i = 0; i < 150; i++)` (which has no break), then `fclose`,
`unlink(temp_filename)`, `free`, and `return 0`. -/
def run (mallocOk fopenOk : Bool) (w : Nat → Nat) : Result :=
  if !mallocOk then
    { total_written := 0, attackIters := 0, unlinked := false, errMsg := true, exitCode := 1 }
  else if !fopenOk then
    { total_written := 0, attackIters := 0, unlinked := false, errMsg := true, exitCode := 1 }
  else
    let attack := List.range 150
    let total := attack.foldl (fun t i => t + w (3 + i)) 0
    { total_written := total
      attackIters := attack.length
      unlinked := true
      errMsg := false
      exitCode := 0 }

end IoStormWriter

namespace CpuSpikeAttack

/-! Embedding of `src/ml_anomaly_tests/cpu_spike_attack.c`.

The program has no fallible calls; its observable behavior is its phase
timing and exit code.  We embed the nominal programmed duration of each
statement in microseconds: `usleep(n)` contributes `n`, `sleep(n)`
contributes `n * 1000000`, and `consume_cpu(d)` busy-loops until `clock()`
reaches `start + d * CLOCKS_PER_SEC`, i.e. `d` seconds of CPU time. -/

/-- Nominal duration of `consume_cpu(duration_sec)` in microseconds. -/
def consume_cpu_us (duration_sec : Nat) : Nat := duration_sec * 1000000

/-- Phase 1: `for (i = 0; i < 5; i++) { usleep(900000); consume_cpu(0); usleep(100000); }`. -/
def phase1_us : Nat := 5 * (900000 + consume_cpu_us 0 + 100000)

/-- Phase 2: `for (i = 0; i < 15; i++) consume_cpu(1);`. -/
def phase2_us : Nat := 15 * consume_cpu_us 1

/-- Phase 3: `for (i = 0; i < 3; i++) sleep(1);`. -/
def phase3_us : Nat := 3 * 1000000

/-- Nominal duration of the whole of `main`. -/
def main_total_us : Nat := phase1_us + phase2_us + phase3_us

/-- `main` ends with `return 0` unconditionally. -/
def exitCode : Nat := 0

end CpuSpikeAttack

namespace FileWriter

/-! Embedding of `src/ui_test_programs/file_writer.c`.

`w k` is the byte count returned by the `k`-th `fwrite` call.  The
`while (1)` loop breaks on the first short write, falls through to
`free`, `fclose` and `return 0`; the output file `test_output.dat` is
never unlinked. -/

/-- The C constant `#define CHUNK_SIZE 1048576`. -/
def CHUNK_SIZE : Nat := 1048576

/-- Observable outcome of a run of `main`. -/
structure Result where
  exitCode : Nat
  errWriteFail : Bool
  outputFileOnDisk : Bool
  total : Nat
  count : Nat
  deriving DecidableEq, Repr

/-- The `while (1)` write loop with fuel: each pass does one `fwrite`; a
short write prints `Write failed after ... MB` to stderr and breaks, after
which `main` returns 0 with the partial file still on disk; a full write
adds to `total`, increments `count` and continues. -/
def loop (w : Nat → Nat) : Nat → Nat → Nat → Option Result
  | 0, _, _ => none
  | fuel + 1, total, count =>
    let written := w count
    if written ≠ CHUNK_SIZE then
      some { exitCode := 0, errWriteFail := true, outputFileOnDisk := true
             total := total, count := count }
    else loop w fuel (total + written) (count + 1)

/-- The whole of `main`: `fopen` (exit 1 on failure, before the file
exists with any content), `malloc` (exit 1 on failure, the opened file
remains), then the write loop. -/
def run (fopenOk mallocOk : Bool) (w : Nat → Nat) (fuel : Nat) : Option Result :=
  if !fopenOk then
    some { exitCode := 1, errWriteFail := false, outputFileOnDisk := false
           total := 0, count := 0 }
  else if !mallocOk then
    some { exitCode := 1, errWriteFail := false, outputFileOnDisk := true
           total := 0, count := 0 }
  else loop w fuel 0 0

end FileWriter

namespace MemoryHog

/-! Embedding of `src/ui_test_programs/memory_hog.c`.

`ok k` says whether the `k`-th `malloc` succeeds.  The `while (1)` loop
breaks on the first allocation failure and `main` then returns 1. -/

/-- The C constant `#define CHUNK_SIZE (10 * 1024 * 1024)`. -/
def CHUNK_SIZE : Nat := 10 * 1024 * 1024

/-- Observable outcome of a run of `main`. -/
structure Result where
  exitCode : Nat
  errMsg : Bool
  total : Nat
  count : Nat
  deriving DecidableEq, Repr

/-- The `while (1)` allocation loop with fuel: a failed `malloc` prints
the diagnostic and breaks (then `return 1`); a success adds `CHUNK_SIZE`
and continues. -/
def loop (ok : Nat → Bool) : Nat → Nat → Nat → Option Result
  | 0, _, _ => none
  | fuel + 1, total, count =>
    if ok count then loop ok fuel (total + CHUNK_SIZE) (count + 1)
    else some { exitCode := 1, errMsg := true, total := total, count := count }

/-- The whole of `main`. -/
def run (ok : Nat → Bool) (fuel : Nat) : Option Result := loop ok fuel 0 0

end MemoryHog

namespace ForkBomb

/-! Embedding of `src/ui_test_programs/fork_bomb.c` (the parent process's
view).  `forkOk k` says whether the `k`-th `fork` call succeeds. -/

/-- Loop state: successful forks, fork calls made, retry sleeps
(`sleep(1)` on the failure path) and failure diagnostics printed. -/
structure St where
  count : Nat
  attempts : Nat
  failSleeps : Nat
  errMsgs : Nat
  deriving DecidableEq, Repr

/-- State at the top of the `while (1)` loop. -/
def init : St := { count := 0, attempts := 0, failSleeps := 0, errMsgs := 0 }

/-- One pass of the loop body: on fork failure print the diagnostics,
`sleep(1)` and `continue`; on success increment `count` and
`usleep(50000)`. -/
def iter (forkOk : Nat → Bool) (s : St) : St :=
  if forkOk s.attempts then
    { s with count := s.count + 1, attempts := s.attempts + 1 }
  else
    { s with attempts := s.attempts + 1, failSleeps := s.failSleeps + 1
             errMsgs := s.errMsgs + 1 }

/-- The `while (1)` loop with fuel.  The first component is the exit
result: the body contains no break and no return, so it is never `some`. -/
def loop (forkOk : Nat → Bool) : Nat → St → Option Nat × St
  | 0, s => (none, s)
  | fuel + 1, s => loop forkOk fuel (iter forkOk s)

end ForkBomb

namespace NetworkTest

/-! Embedding of `src/ui_test_programs/network_test.c`.  `sockOk k` and
`connOk k` are the results of the `socket` and `connect` calls of the
`k`-th loop pass (0-based; the program's `attempt` counter is 1-based). -/

/-- Loop state: the `attempt` counter, failure counters, sleeps taken on
each path (`sleep(2)` after a socket or address failure, `sleep(3)` at the
end of a completed attempt) and `close` calls. -/
structure St where
  attempt : Nat
  socketFails : Nat
  connectFails : Nat
  sleep2s : Nat
  sleep3s : Nat
  closes : Nat
  deriving DecidableEq, Repr

/-- State at the top of the `while (1)` loop. -/
def init : St :=
  { attempt := 0, socketFails := 0, connectFails := 0
    sleep2s := 0, sleep3s := 0, closes := 0 }

/-- `inet_pton(AF_INET, "8.8.8.8", ...)` is applied to a fixed valid
literal, so it succeeds on every pass. -/
def inet_pton_ok : Bool := true

/-- One pass of the loop body: `attempt++`; on `socket` failure print the
diagnostics, `sleep(2)` and `continue`; on `inet_pton` failure `close`,
`sleep(2)` and `continue`; otherwise `connect`, report its outcome,
`close` and `sleep(3)`. -/
def iter (sockOk connOk : Nat → Bool) (s : St) : St :=
  let a := s.attempt + 1
  if !sockOk s.attempt then
    { s with attempt := a, socketFails := s.socketFails + 1, sleep2s := s.sleep2s + 1 }
  else if !inet_pton_ok then
    { s with attempt := a, closes := s.closes + 1, sleep2s := s.sleep2s + 1 }
  else if !connOk s.attempt then
    { s with attempt := a, connectFails := s.connectFails + 1
             closes := s.closes + 1, sleep3s := s.sleep3s + 1 }
  else
    { s with attempt := a, closes := s.closes + 1, sleep3s := s.sleep3s + 1 }

/-- The `while (1)` loop with fuel.  The first component is the exit
result: the body contains no break and no return, so it is never `some`. -/
def loop (sockOk connOk : Nat → Bool) : Nat → St → Option Nat × St
  | 0, s => (none, s)
  | fuel + 1, s => loop sockOk connOk fuel (iter sockOk connOk s)

end NetworkTest

namespace ForkBombGradual

theorem max_threads_lower (arg : Option Int) : 5 ≤ max_threads arg := by
  cases arg with
  | none => decide
  | some a =>
    simp only [max_threads, MAX_THREADS]
    split
    · split <;> omega
    · split <;> omega

theorem max_threads_upper (arg : Option Int) : max_threads arg ≤ 80 := by
  cases arg with
  | none => decide
  | some a =>
    simp only [max_threads, MAX_THREADS]
    split
    · split <;> omega
    · split <;> omega

theorem phase2_created_threads_le (ok : Nat → Bool) (l : List Nat) (s : St) :
    (phase2 ok l s).1.created_threads ≤ s.created_threads + l.length := by
  induction l generalizing s with
  | nil => simp [phase2]
  | cons i rest ih =>
    simp only [phase2]
    split
    · have h := ih { created := s.created ++ [i], created_threads := s.created_threads + 1 }
      dsimp only at h
      simp only [List.length_cons]
      omega
    · simp only [List.length_cons]
      omega

theorem phase1_created_threads_le (ok : Nat → Bool) (maxN : Nat) :
    (phase1 ok maxN).created_threads ≤ min 5 maxN := by
  have h : ∀ (l : List Nat) (s : St),
      (l.foldl (fun s i =>
        if ok i then
          { created := s.created ++ [i], created_threads := s.created_threads + 1 }
        else s) s).created_threads ≤ s.created_threads + l.length := by
    intro l
    induction l with
    | nil => intro s; simp
    | cons i rest ih =>
      intro s
      simp only [List.foldl_cons, List.length_cons]
      split
      · have h := ih { created := s.created ++ [i], created_threads := s.created_threads + 1 }
        dsimp only at h
        omega
      · have := ih s
        omega
  have := h (List.range (min 5 maxN)) ⟨[], 0⟩
  simpa using this

/-- The created-thread counter never exceeds the clamped maximum. -/
theorem run_created_threads_le (arg : Option Int) (ok : Nat → Bool) :
    (run arg ok).created_threads ≤ (max_threads arg).toNat := by
  have h5 : 5 ≤ (max_threads arg).toNat := by
    have := max_threads_lower arg
    omega
  simp only [run]
  have h1 := phase1_created_threads_le ok (max_threads arg).toNat
  have h2 := phase2_created_threads_le ok
    (List.range' 5 ((max_threads arg).toNat - 5)) (phase1 ok (max_threads arg).toNat)
  simp only [List.length_range'] at h2
  omega

theorem phase2_invariant (ok : Nat → Bool) (k : Nat) :
    ∀ (c : Nat) (s : St), s.created = List.range c → s.created_threads = c →
      (phase2 ok (List.range' c k) s).1.created =
        List.range (phase2 ok (List.range' c k) s).1.created_threads := by
  induction k with
  | zero =>
    intro c s h1 h2
    simp [phase2, h1, h2]
  | succ k ih =>
    intro c s h1 h2
    rw [List.range', phase2]
    split
    · exact ih (c + 1)
        { created := s.created ++ [c], created_threads := s.created_threads + 1 }
        (by simp [h1, h2, List.range_succ]) (by simp [h2])
    · dsimp only
      rw [h1, h2]

theorem phase1_all_ok (ok : Nat → Bool) (maxN : Nat) (h5 : 5 ≤ maxN)
    (hok : ∀ i, i < 5 → ok i = true) :
    phase1 ok maxN = ⟨List.range 5, 5⟩ := by
  have hmin : min 5 maxN = 5 := by omega
  simp only [phase1, hmin]
  have : List.range 5 = [0, 1, 2, 3, 4] := by decide
  rw [this]
  simp [List.foldl, hok 0 (by omega), hok 1 (by omega), hok 2 (by omega),
    hok 3 (by omega), hok 4 (by omega)]

/-- When every phase-1 creation succeeds, the set of created slots is
exactly `0 .. created_threads - 1`, which is exactly the set the cleanup
loop joins. -/
theorem run_joined_eq_created (arg : Option Int) (ok : Nat → Bool)
    (hok : ∀ i, i < 5 → ok i = true) :
    (run arg ok).joined = (run arg ok).created := by
  have h5 : 5 ≤ (max_threads arg).toNat := by
    have := max_threads_lower arg
    omega
  simp only [run, phase1_all_ok ok (max_threads arg).toNat h5 hok]
  have := phase2_invariant ok ((max_threads arg).toNat - 5) 5
    ⟨List.range 5, 5⟩ rfl rfl
  exact this.symm

theorem phase2_stops_at_first_failure (ok : Nat → Bool) (k : Nat) :
    ∀ (c : Nat) (s : St) (j : Nat), s.created_threads = c → c ≤ j → j < c + k →
      (∀ i, c ≤ i → i < j → ok i = true) → ok j = false →
      (phase2 ok (List.range' c k) s).1.created_threads = j ∧
        (phase2 ok (List.range' c k) s).2 = true := by
  induction k with
  | zero =>
    intro c s j _ h1 h2 _ _
    omega
  | succ k ih =>
    intro c s j hc h1 h2 hall hj
    rw [List.range', phase2]
    rcases Nat.eq_or_lt_of_le h1 with heq | hlt
    · have : ok c = false := heq ▸ hj
      rw [this]
      simp [hc, heq]
    · have hokc : ok c = true := hall c le_rfl hlt
      rw [hokc]
      simp only [if_pos rfl]
      exact ih (c + 1)
        { created := s.created ++ [c], created_threads := s.created_threads + 1 }
        j (by simp [hc]) hlt (by omega)
        (fun i hi hij => hall i (by omega) hij) hj

end ForkBombGradual

/-- Claim C10: for every command-line argument given to the gradual fork
bomb generator (non-numeric text included, since `atoi` maps it to `0`),
the effective maximum thread count is clamped into `[5, 80]`; with no
argument it is exactly `80`. -/
theorem claim_C10_max_threads_clamped :
    (∀ a : Int, 5 ≤ ForkBombGradual.max_threads (some a) ∧
      ForkBombGradual.max_threads (some a) ≤ 80) ∧
    ForkBombGradual.max_threads none = 80 :=
  ⟨fun a => ⟨ForkBombGradual.max_threads_lower (some a),
    ForkBombGradual.max_threads_upper (some a)⟩, rfl⟩

/-- Claim C6, counterexample: with argument `3` (clamped to `5`) and an
environment in which the phase-1 `pthread_create` for slot `0` fails while
all others succeed, thread slot `4` is successfully created but the
cleanup loop joins only slots `0..3`, so a created thread is never
joined.  This refutes the claim that in every execution every
successfully created thread is joined before exit. -/
theorem claim_C6_counterexample :
    4 ∈ (ForkBombGradual.run (some 3) (fun i => decide (0 < i))).created ∧
    4 ∉ (ForkBombGradual.run (some 3) (fun i => decide (0 < i))).joined := by
  decide

/-- Claim C6, amended: for every argument and environment the number of
threads created never exceeds the configured maximum, and provided all
five phase-1 creations succeed (phase-2 failures stop the spawning loop
and are harmless), the cleanup loop joins exactly the created slots. -/
theorem claim_C6_bounded_and_joined (arg : Option Int) (ok : Nat → Bool) :
    (ForkBombGradual.run arg ok).created_threads ≤
      (ForkBombGradual.max_threads arg).toNat ∧
    ((∀ i, i < 5 → ok i = true) →
      (ForkBombGradual.run arg ok).joined = (ForkBombGradual.run arg ok).created) :=
  ⟨ForkBombGradual.run_created_threads_le arg ok,
   fun h => ForkBombGradual.run_joined_eq_created arg ok h⟩

/-- Claim C6, witness: the amended claim at the concrete input of no
argument and an environment in which every creation succeeds. -/
theorem claim_C6_witness :
    (ForkBombGradual.run none (fun _ => true)).created_threads ≤
      (ForkBombGradual.max_threads none).toNat ∧
    (ForkBombGradual.run none (fun _ => true)).joined =
      (ForkBombGradual.run none (fun _ => true)).created :=
  ⟨(claim_C6_bounded_and_joined none (fun _ => true)).1,
   (claim_C6_bounded_and_joined none (fun _ => true)).2 (fun _ _ => rfl)⟩

namespace MemoryLeakProgressive

theorem allocLoop_allocations_high (ok : Nat → Bool) (l : List Nat) :
    ∀ (s : St) (i : Nat), (∀ j ∈ l, j < 25) → 25 ≤ i →
      (allocLoop ok l s).allocations i = s.allocations i := by
  induction l with
  | nil => intro s i _ _; rfl
  | cons j rest ih =>
    intro s i hl hi
    have hj : j < 25 := hl j (by simp)
    have hne : i ≠ j := by omega
    simp only [allocLoop]
    split
    · rw [ih _ i (fun x hx => hl x (by simp [hx])) hi]
      dsimp only
      rw [Function.update_noteq hne]
    · dsimp only
      rw [Function.update_noteq hne]

theorem run_allocations_high (ok : Nat → Bool) (junk : Nat → Nat) (i : Nat)
    (hi : 25 ≤ i) :
    (run ok junk).allocations i = Slot.uninit := by
  simp only [run]
  exact allocLoop_allocations_high ok (List.range 25) _ i
    (fun j hj => List.mem_range.mp hj) hi

theorem allocLoop_sizes (ok : Nat → Bool) (k : Nat) :
    ∀ (c : Nat) (s : St),
      s.allocSizes = (List.range c).map (fun t => (t + 1) * 5 * MB) →
      ∃ m, (allocLoop ok (List.range' c k) s).allocSizes
          = (List.range m).map (fun t => (t + 1) * 5 * MB) := by
  induction k with
  | zero => intro c s h; exact ⟨c, by simpa [allocLoop] using h⟩
  | succ k ih =>
    intro c s h
    rw [List.range', allocLoop]
    split
    · exact ih (c + 1) _ (by simp [h, List.range_succ])
    · exact ⟨c, by simpa using h⟩

theorem run_allocSizes (ok : Nat → Bool) (junk : Nat → Nat) :
    ∃ m, (run ok junk).allocSizes = (List.range m).map (fun t => (t + 1) * 5 * MB) := by
  simp only [run]
  have := allocLoop_sizes ok 25 0
    { allocations := fun _ => Slot.uninit, total_allocated := 0
      failMsg := false, allocSizes := [] } (by simp)
  rw [List.range_eq_range']
  exact this

theorem allocLoop_stops_at_first_failure (ok : Nat → Bool) (k : Nat) :
    ∀ (c : Nat) (s : St) (j : Nat), s.allocSizes.length = c → c ≤ j → j < c + k →
      (∀ i, c ≤ i → i < j → ok i = true) → ok j = false →
      (allocLoop ok (List.range' c k) s).failMsg = true ∧
        (allocLoop ok (List.range' c k) s).allocSizes.length = j := by
  induction k with
  | zero =>
    intro c s j _ h1 h2 _ _
    omega
  | succ k ih =>
    intro c s j hc h1 h2 hall hj
    rw [List.range', allocLoop]
    rcases Nat.eq_or_lt_of_le h1 with heq | hlt
    · have : ok c = false := heq ▸ hj
      rw [this]
      simp [hc, heq]
    · have hokc : ok c = true := hall c le_rfl hlt
      rw [hokc]
      simp only [if_pos rfl]
      exact ih (c + 1) _ j (by simp [hc]) hlt (by omega)
        (fun i hi hij => hall i (by omega) hij) hj

theorem run_stops_at_first_failure (ok : Nat → Bool) (junk : Nat → Nat) (j : Nat)
    (hj25 : j < 25) (hall : ∀ i, i < j → ok i = true) (hj : ok j = false) :
    (run ok junk).failMsg = true ∧ (run ok junk).allocSizes.length = j := by
  simp only [run]
  rw [List.range_eq_range']
  exact allocLoop_stops_at_first_failure ok 25 0 _ j (by simp) (Nat.zero_le j)
    (by omega) (fun i _ hij => hall i hij) hj

end MemoryLeakProgressive

/-- Claim C9: the cleanup loop of the progressive memory leak generator
inspects all 30 entries of `allocations`, but the allocation loop writes
at most the first 25 of them (indices `0..24`), so in every execution the
five entries `25..29` are read while still holding their indeterminate
initial contents, and whenever such an indeterminate word is non-null it
is passed to `free`. -/
theorem claim_C9_uninitialized_cleanup_reads (ok : Nat → Bool) (junk : Nat → Nat)
    (i : Nat) (h25 : 25 ≤ i) (h30 : i < 30) :
    (MemoryLeakProgressive.run ok junk).allocations i =
      MemoryLeakProgressive.Slot.uninit ∧
    i ∈ (MemoryLeakProgressive.run ok junk).cleanupScanned ∧
    (junk i ≠ 0 → i ∈ (MemoryLeakProgressive.run ok junk).freedIndices) := by
  refine ⟨MemoryLeakProgressive.run_allocations_high ok junk i h25, ?_, ?_⟩
  · simp only [MemoryLeakProgressive.run]
    exact List.mem_range.mpr h30
  · intro hz
    simp only [MemoryLeakProgressive.run, List.mem_filter]
    refine ⟨List.mem_range.mpr h30, ?_⟩
    have huninit := MemoryLeakProgressive.run_allocations_high ok junk i h25
    simp only [MemoryLeakProgressive.run] at huninit
    rw [huninit]
    simp [MemoryLeakProgressive.truthy, hz]

/-- Claim C9, witness: slot `25` with every allocation succeeding and an
all-ones stack residue. -/
theorem claim_C9_witness :
    (MemoryLeakProgressive.run (fun _ => true) (fun _ => 1)).allocations 25 =
      MemoryLeakProgressive.Slot.uninit ∧
    25 ∈ (MemoryLeakProgressive.run (fun _ => true) (fun _ => 1)).cleanupScanned ∧
    25 ∈ (MemoryLeakProgressive.run (fun _ => true) (fun _ => 1)).freedIndices := by
  have h := claim_C9_uninitialized_cleanup_reads (fun _ => true) (fun _ => 1) 25
    (by decide) (by decide)
  exact ⟨h.1, h.2.1, h.2.2 (by decide)⟩

/-- Claim C1: in the progressive memory leak generator the claimed
equality between resources released and resources acquired fails: in the
run in which all 25 allocations succeed and the five never-written slots
`25..29` hold non-null stack residue, the cleanup loop calls `free` 30
times although only 25 blocks were allocated — the 30-entry cleanup loop
over a 25-entry fill is a slip that passes indeterminate pointers to
`free`. -/
theorem claim_C1_free_count_mismatch :
    (MemoryLeakProgressive.run (fun _ => true) (fun _ => 1)).freeCalls = 30 ∧
    (MemoryLeakProgressive.run (fun _ => true) (fun _ => 1)).allocSizes.length = 25 ∧
    (MemoryLeakProgressive.run (fun _ => true) (fun _ => 1)).freeCalls ≠
      (MemoryLeakProgressive.run (fun _ => true) (fun _ => 1)).allocSizes.length := by
  refine ⟨?_, ?_, ?_⟩ <;> decide

namespace ResourceExhaustionCombo

theorem threadBurst_leak_count (tOk : Nat → Bool) (j : Nat) :
    ∀ s : St, (threadBurst tOk j s).leak_count = s.leak_count := by
  induction j with
  | zero => intro s; rfl
  | succ j ih =>
    intro s
    simp only [threadBurst]
    split
    · split
      · exact ih _
      · exact ih _
    · rfl

theorem threadBurst_allocSizes (tOk : Nat → Bool) (j : Nat) :
    ∀ s : St, (threadBurst tOk j s).allocSizes = s.allocSizes := by
  induction j with
  | zero => intro s; rfl
  | succ j ih =>
    intro s
    simp only [threadBurst]
    split
    · split
      · exact ih _
      · exact ih _
    · rfl

theorem threadBurst_leakSlots (tOk : Nat → Bool) (j : Nat) :
    ∀ s : St, (threadBurst tOk j s).leakSlots = s.leakSlots := by
  induction j with
  | zero => intro s; rfl
  | succ j ih =>
    intro s
    simp only [threadBurst]
    split
    · split
      · exact ih _
      · exact ih _
    · rfl

theorem threadBurst_file_count (tOk : Nat → Bool) (j : Nat) :
    ∀ s : St, (threadBurst tOk j s).file_count = s.file_count := by
  induction j with
  | zero => intro s; rfl
  | succ j ih =>
    intro s
    simp only [threadBurst]
    split
    · split
      · exact ih _
      · exact ih _
    · rfl

theorem threadBurst_errMsgs (tOk : Nat → Bool) (j : Nat) :
    ∀ s : St, (threadBurst tOk j s).errMsgs = s.errMsgs := by
  induction j with
  | zero => intro s; rfl
  | succ j ih =>
    intro s
    simp only [threadBurst]
    split
    · split
      · exact ih _
      · exact ih _
    · rfl

theorem threadBurst_iters (tOk : Nat → Bool) (j : Nat) :
    ∀ s : St, (threadBurst tOk j s).iters = s.iters := by
  induction j with
  | zero => intro s; rfl
  | succ j ih =>
    intro s
    simp only [threadBurst]
    split
    · split
      · exact ih _
      · exact ih _
    · rfl

theorem threadBurst_createdSlots_inv (tOk : Nat → Bool) (j : Nat) :
    ∀ s : St, s.createdSlots = List.range s.thread_count →
      (threadBurst tOk j s).createdSlots =
        List.range (threadBurst tOk j s).thread_count := by
  induction j with
  | zero => intro s h; exact h
  | succ j ih =>
    intro s h
    simp only [threadBurst]
    split
    · split
      · exact ih _ (by simp only [h]; exact (List.range_succ _).symm)
      · exact ih _ h
    · exact h

theorem comboIter_iters (mOk tOk fOk : Nat → Bool) (s : St) (i : Nat) :
    (comboIter mOk tOk fOk s i).iters = s.iters + 1 := by
  simp only [comboIter]
  repeat' split
  all_goals simp [threadBurst_iters]

theorem comboIter_errMsgs (mOk tOk fOk : Nat → Bool) (s : St) (i : Nat) :
    (comboIter mOk tOk fOk s i).errMsgs = s.errMsgs := by
  simp only [comboIter]
  repeat' split
  all_goals simp [threadBurst_errMsgs]

end ResourceExhaustionCombo

namespace ResourceExhaustionCombo

theorem comboIter_allocSizes_inv (mOk tOk fOk : Nat → Bool) (s : St) (i : Nat)
    (h : s.allocSizes = (List.range s.leak_count).map (fun t => (t + 1) * 8 * MB)) :
    (comboIter mOk tOk fOk s i).allocSizes =
      (List.range (comboIter mOk tOk fOk s i).leak_count).map
        (fun t => (t + 1) * 8 * MB) := by
  simp only [comboIter]
  repeat' split
  all_goals simp [threadBurst_allocSizes, threadBurst_leak_count, h, List.range_succ]

theorem comboIter_createdSlots_inv (mOk tOk fOk : Nat → Bool) (s : St) (i : Nat)
    (h : s.createdSlots = List.range s.thread_count) :
    (comboIter mOk tOk fOk s i).createdSlots =
      List.range (comboIter mOk tOk fOk s i).thread_count := by
  simp only [comboIter]
  repeat' split
  all_goals first
    | exact threadBurst_createdSlots_inv tOk 3 _ (by simp [h])
    | simp [h]

theorem comboIter_leakSlots_inv (mOk tOk fOk : Nat → Bool) (s : St) (i : Nat)
    (h : s.leakSlots = List.range s.leak_count) :
    (comboIter mOk tOk fOk s i).leakSlots =
      List.range (comboIter mOk tOk fOk s i).leak_count := by
  simp only [comboIter]
  repeat' split
  all_goals simp [threadBurst_leakSlots, threadBurst_leak_count, h, List.range_succ]

theorem comboFold_iters (mOk tOk fOk : Nat → Bool) (l : List Nat) :
    ∀ s : St, (l.foldl (comboIter mOk tOk fOk) s).iters = s.iters + l.length := by
  induction l with
  | nil => intro s; simp
  | cons i rest ih =>
    intro s
    simp only [List.foldl_cons, List.length_cons]
    rw [ih, comboIter_iters]
    omega

theorem comboFold_errMsgs (mOk tOk fOk : Nat → Bool) (l : List Nat) :
    ∀ s : St, (l.foldl (comboIter mOk tOk fOk) s).errMsgs = s.errMsgs := by
  induction l with
  | nil => intro s; rfl
  | cons i rest ih =>
    intro s
    simp only [List.foldl_cons]
    rw [ih, comboIter_errMsgs]

theorem comboFold_allocSizes_inv (mOk tOk fOk : Nat → Bool) (l : List Nat) :
    ∀ s : St, s.allocSizes = (List.range s.leak_count).map (fun t => (t + 1) * 8 * MB) →
      (l.foldl (comboIter mOk tOk fOk) s).allocSizes =
        (List.range (l.foldl (comboIter mOk tOk fOk) s).leak_count).map
          (fun t => (t + 1) * 8 * MB) := by
  induction l with
  | nil => intro s h; exact h
  | cons i rest ih =>
    intro s h
    simp only [List.foldl_cons]
    exact ih _ (comboIter_allocSizes_inv mOk tOk fOk s i h)

theorem comboFold_createdSlots_inv (mOk tOk fOk : Nat → Bool) (l : List Nat) :
    ∀ s : St, s.createdSlots = List.range s.thread_count →
      (l.foldl (comboIter mOk tOk fOk) s).createdSlots =
        List.range (l.foldl (comboIter mOk tOk fOk) s).thread_count := by
  induction l with
  | nil => intro s h; exact h
  | cons i rest ih =>
    intro s h
    simp only [List.foldl_cons]
    exact ih _ (comboIter_createdSlots_inv mOk tOk fOk s i h)

theorem comboFold_leakSlots_inv (mOk tOk fOk : Nat → Bool) (l : List Nat) :
    ∀ s : St, s.leakSlots = List.range s.leak_count →
      (l.foldl (comboIter mOk tOk fOk) s).leakSlots =
        List.range (l.foldl (comboIter mOk tOk fOk) s).leak_count := by
  induction l with
  | nil => intro s h; exact h
  | cons i rest ih =>
    intro s h
    simp only [List.foldl_cons]
    exact ih _ (comboIter_leakSlots_inv mOk tOk fOk s i h)

theorem run_iters (mOk tOk fOk : Nat → Bool) : (run mOk tOk fOk).final.iters = 20 := by
  simp only [run]
  rw [comboFold_iters]
  rfl

theorem run_errMsgs (mOk tOk fOk : Nat → Bool) : (run mOk tOk fOk).final.errMsgs = 0 := by
  simp only [run]
  rw [comboFold_errMsgs]
  rfl

theorem run_allocSizes_inv (mOk tOk fOk : Nat → Bool) :
    (run mOk tOk fOk).final.allocSizes =
      (List.range (run mOk tOk fOk).final.leak_count).map
        (fun t => (t + 1) * 8 * MB) := by
  simp only [run]
  exact comboFold_allocSizes_inv mOk tOk fOk (List.range 20) init (by simp [init])

/-- The combo generator's cleanup exactly matches its acquisitions: the
join loop joins exactly the thread slots that were successfully created,
the free loop frees exactly the leak slots that were successfully
allocated, and the close/unlink loop covers exactly the successfully
opened files. -/
theorem run_cleanup_matches_acquisitions (mOk tOk fOk : Nat → Bool) :
    (run mOk tOk fOk).joined = (run mOk tOk fOk).final.createdSlots ∧
    (run mOk tOk fOk).freed = (run mOk tOk fOk).final.leakSlots ∧
    (run mOk tOk fOk).closedFds = (run mOk tOk fOk).unlinked := by
  refine ⟨?_, ?_, rfl⟩
  · simp only [run]
    exact (comboFold_createdSlots_inv mOk tOk fOk (List.range 20) init (by simp [init])).symm
  · simp only [run]
    exact (comboFold_leakSlots_inv mOk tOk fOk (List.range 20) init (by simp [init])).symm

end ResourceExhaustionCombo

/-- Reading position `j` of the list `f 0, f 1, ..., f (m-1)`. -/
theorem getD_range_map (f : Nat → Nat) (m j : Nat) (h : j < m) :
    ((List.range m).map f).getD j 0 = f j := by
  have hlen : j < ((List.range m).map f).length := by simpa using h
  rw [List.getD_eq_getElem _ _ hlen]
  simp

namespace ForkBombGradual

theorem run_failure_reported_and_stops (arg : Option Int) (ok : Nat → Bool) (j : Nat)
    (h5 : 5 ≤ j) (hj : j < (max_threads arg).toNat)
    (hall : ∀ i, i < j → ok i = true) (hfail : ok j = false) :
    (run arg ok).failMsg = true ∧ (run arg ok).created_threads = j := by
  have hmax5 : 5 ≤ (max_threads arg).toNat := by
    have := max_threads_lower arg
    omega
  simp only [run, phase1_all_ok ok (max_threads arg).toNat hmax5
    (fun i hi => hall i (by omega))]
  have := phase2_stops_at_first_failure ok ((max_threads arg).toNat - 5) 5
    ⟨List.range 5, 5⟩ j rfl h5 (by omega)
    (fun i hi hij => hall i hij) hfail
  exact ⟨this.2, this.1⟩

end ForkBombGradual

/-- Claim C5: in the progressive memory leak generator every pair of
consecutive successful allocations differs by exactly `5 * MB` (the sizes
are `5 MB, 10 MB, 15 MB, ...` and the loop stops at the first failure);
in the combo generator every pair of consecutive successful allocations
differs by exactly `8 * MB` (only successes advance `leak_count`, so a
failed attempt is retried at the same size and successive successful
sizes are `8 MB, 16 MB, ...`). -/
theorem claim_C5_alloc_size_increments :
    (∀ (ok : Nat → Bool) (junk : Nat → Nat) (j : Nat),
      j + 1 < (MemoryLeakProgressive.run ok junk).allocSizes.length →
      (MemoryLeakProgressive.run ok junk).allocSizes.getD (j + 1) 0 =
        (MemoryLeakProgressive.run ok junk).allocSizes.getD j 0 + 5 * MB) ∧
    (∀ (mOk tOk fOk : Nat → Bool) (j : Nat),
      j + 1 < (ResourceExhaustionCombo.run mOk tOk fOk).final.allocSizes.length →
      (ResourceExhaustionCombo.run mOk tOk fOk).final.allocSizes.getD (j + 1) 0 =
        (ResourceExhaustionCombo.run mOk tOk fOk).final.allocSizes.getD j 0 + 8 * MB) := by
  constructor
  · intro ok junk j hj
    obtain ⟨m, hm⟩ := MemoryLeakProgressive.run_allocSizes ok junk
    rw [hm] at hj ⊢
    simp only [List.length_map, List.length_range] at hj
    rw [getD_range_map _ m (j + 1) hj, getD_range_map _ m j (by omega)]
    ring
  · intro mOk tOk fOk j hj
    have hm := ResourceExhaustionCombo.run_allocSizes_inv mOk tOk fOk
    rw [hm] at hj ⊢
    simp only [List.length_map, List.length_range] at hj
    rw [getD_range_map _ _ (j + 1) hj, getD_range_map _ _ j (by omega)]
    ring

set_option maxRecDepth 10000 in
/-- Claim C5, witness: the first two successful allocations of each
generator, in environments where every call succeeds. -/
theorem claim_C5_witness :
    ((MemoryLeakProgressive.run (fun _ => true) (fun _ => 0)).allocSizes.getD 1 0 =
      (MemoryLeakProgressive.run (fun _ => true) (fun _ => 0)).allocSizes.getD 0 0
        + 5 * MB) ∧
    ((ResourceExhaustionCombo.run (fun _ => true) (fun _ => true)
        (fun _ => true)).final.allocSizes.getD 1 0 =
      (ResourceExhaustionCombo.run (fun _ => true) (fun _ => true)
        (fun _ => true)).final.allocSizes.getD 0 0 + 8 * MB) :=
  ⟨claim_C5_alloc_size_increments.1 (fun _ => true) (fun _ => 0) 0 (by decide),
   claim_C5_alloc_size_increments.2 (fun _ => true) (fun _ => true) (fun _ => true) 0
     (by decide)⟩

set_option maxRecDepth 10000 in
/-- Claim C3, counterexample: in the combo generator with every `malloc`
failing, ten allocation attempts fail during the attack phase, yet no
diagnostic is printed (the source has no failure branch) and the phase is
not aborted early: all 20 iterations execute.  This refutes the claim
that in every bounded generator an OS-operation failure is reported and
aborts the phase. -/
theorem claim_C3_counterexample :
    (ResourceExhaustionCombo.run (fun _ => false) (fun _ => true)
        (fun _ => true)).final.mAttempts = 10 ∧
    (ResourceExhaustionCombo.run (fun _ => false) (fun _ => true)
        (fun _ => true)).final.leak_count = 0 ∧
    (ResourceExhaustionCombo.run (fun _ => false) (fun _ => true)
        (fun _ => true)).final.errMsgs = 0 ∧
    (ResourceExhaustionCombo.run (fun _ => false) (fun _ => true)
        (fun _ => true)).final.iters = 20 := by
  refine ⟨?_, ?_, ?_, ?_⟩ <;> decide

/-- Claim C3, amended: the progressive memory leak generator reports its
first allocation failure and aborts the allocation loop there; the
gradual fork bomb generator reports a phase-2 creation failure and aborts
the spawning loop there (phase-1 failures are silently skipped); the
combo generator prints no diagnostic on failure and always completes its
20 attack iterations; in all three cases execution still proceeds to
cleanup and the process exits with code 0. -/
theorem claim_C3_failure_policy :
    (∀ (ok : Nat → Bool) (junk : Nat → Nat) (j : Nat), j < 25 →
      (∀ i, i < j → ok i = true) → ok j = false →
      (MemoryLeakProgressive.run ok junk).failMsg = true ∧
      (MemoryLeakProgressive.run ok junk).allocSizes.length = j ∧
      (MemoryLeakProgressive.run ok junk).exitCode = 0) ∧
    (∀ (arg : Option Int) (ok : Nat → Bool) (j : Nat),
      5 ≤ j → j < (ForkBombGradual.max_threads arg).toNat →
      (∀ i, i < j → ok i = true) → ok j = false →
      (ForkBombGradual.run arg ok).failMsg = true ∧
      (ForkBombGradual.run arg ok).created_threads = j ∧
      (ForkBombGradual.run arg ok).exitCode = 0) ∧
    (∀ mOk tOk fOk : Nat → Bool,
      (ResourceExhaustionCombo.run mOk tOk fOk).final.errMsgs = 0 ∧
      (ResourceExhaustionCombo.run mOk tOk fOk).final.iters = 20 ∧
      (ResourceExhaustionCombo.run mOk tOk fOk).exitCode = 0) := by
  refine ⟨?_, ?_, ?_⟩
  · intro ok junk j hj hall hfail
    have h := MemoryLeakProgressive.run_stops_at_first_failure ok junk j hj hall hfail
    exact ⟨h.1, h.2, rfl⟩
  · intro arg ok j h5 hj hall hfail
    have h := ForkBombGradual.run_failure_reported_and_stops arg ok j h5 hj hall hfail
    exact ⟨h.1, h.2, rfl⟩
  · intro mOk tOk fOk
    exact ⟨ResourceExhaustionCombo.run_errMsgs mOk tOk fOk,
      ResourceExhaustionCombo.run_iters mOk tOk fOk, rfl⟩

/-- Claim C3, witness: an allocation failure at iteration 3 of the
progressive leak, a creation failure at slot 10 of the gradual fork bomb
with no argument, and all-failing allocations in the combo generator. -/
theorem claim_C3_witness :
    ((MemoryLeakProgressive.run (fun i => decide (i < 3)) (fun _ => 0)).failMsg = true ∧
      (MemoryLeakProgressive.run (fun i => decide (i < 3)) (fun _ => 0)).allocSizes.length
        = 3 ∧
      (MemoryLeakProgressive.run (fun i => decide (i < 3)) (fun _ => 0)).exitCode = 0) ∧
    ((ForkBombGradual.run none (fun i => decide (i < 10))).failMsg = true ∧
      (ForkBombGradual.run none (fun i => decide (i < 10))).created_threads = 10 ∧
      (ForkBombGradual.run none (fun i => decide (i < 10))).exitCode = 0) ∧
    ((ResourceExhaustionCombo.run (fun _ => false) (fun _ => false)
        (fun _ => false)).final.errMsgs = 0 ∧
      (ResourceExhaustionCombo.run (fun _ => false) (fun _ => false)
        (fun _ => false)).final.iters = 20 ∧
      (ResourceExhaustionCombo.run (fun _ => false) (fun _ => false)
        (fun _ => false)).exitCode = 0) :=
  ⟨claim_C3_failure_policy.1 (fun i => decide (i < 3)) (fun _ => 0) 3 (by decide)
      (fun i hi => by simpa using hi) (by decide),
   claim_C3_failure_policy.2.1 none (fun i => decide (i < 10)) 10 (by decide) (by decide)
      (fun i hi => by simpa using hi) (by decide),
   claim_C3_failure_policy.2.2 (fun _ => false) (fun _ => false) (fun _ => false)⟩

namespace FileWriter

theorem loop_first_short (w : Nat → Nat) :
    ∀ (n fuel t c : Nat), (∀ i, i < n → w (c + i) = CHUNK_SIZE) →
      w (c + n) ≠ CHUNK_SIZE → n < fuel →
      loop w fuel t c =
        some { exitCode := 0, errWriteFail := true, outputFileOnDisk := true,
               total := t + n * CHUNK_SIZE, count := c + n } := by
  intro n
  induction n with
  | zero =>
    intro fuel t c _ hshort hfuel
    match fuel, hfuel with
    | fuel + 1, _ =>
      simp only [loop]
      rw [if_pos (by simpa using hshort)]
      simp
  | succ n ih =>
    intro fuel t c hfull hshort hfuel
    match fuel, hfuel with
    | fuel + 1, hfuel =>
      simp only [loop]
      have hc : w c = CHUNK_SIZE := by simpa using hfull 0 (by omega)
      rw [if_neg (by simp [hc]), hc]
      have hshift : ∀ i, i < n → w (c + 1 + i) = CHUNK_SIZE := by
        intro i hi
        have he : c + 1 + i = c + (i + 1) := by omega
        rw [he]
        exact hfull (i + 1) (by omega)
      have hshort2 : w (c + 1 + n) ≠ CHUNK_SIZE := by
        have he : c + 1 + n = c + (n + 1) := by omega
        rw [he]
        exact hshort
      rw [ih fuel (t + CHUNK_SIZE) (c + 1) hshift hshort2 (by omega)]
      have h1 : t + CHUNK_SIZE + n * CHUNK_SIZE = t + (n + 1) * CHUNK_SIZE := by ring
      have h2 : c + 1 + n = c + (n + 1) := by omega
      rw [h1, h2]

end FileWriter

namespace MemoryHog

theorem loop_first_failure (ok : Nat → Bool) :
    ∀ (n fuel t c : Nat), (∀ i, i < n → ok (c + i) = true) →
      ok (c + n) = false → n < fuel →
      loop ok fuel t c =
        some { exitCode := 1, errMsg := true,
               total := t + n * CHUNK_SIZE, count := c + n } := by
  intro n
  induction n with
  | zero =>
    intro fuel t c _ hfail hfuel
    match fuel, hfuel with
    | fuel + 1, _ =>
      simp only [loop]
      rw [if_neg (by simpa using hfail)]
      simp
  | succ n ih =>
    intro fuel t c hfull hfail hfuel
    match fuel, hfuel with
    | fuel + 1, hfuel =>
      simp only [loop]
      have hc : ok c = true := by simpa using hfull 0 (by omega)
      rw [if_pos hc]
      have hshift : ∀ i, i < n → ok (c + 1 + i) = true := by
        intro i hi
        have he : c + 1 + i = c + (i + 1) := by omega
        rw [he]
        exact hfull (i + 1) (by omega)
      have hfail2 : ok (c + 1 + n) = false := by
        have he : c + 1 + n = c + (n + 1) := by omega
        rw [he]
        exact hfail
      rw [ih fuel (t + CHUNK_SIZE) (c + 1) hshift hfail2 (by omega)]
      have h1 : t + CHUNK_SIZE + n * CHUNK_SIZE = t + (n + 1) * CHUNK_SIZE := by ring
      have h2 : c + 1 + n = c + (n + 1) := by omega
      rw [h1, h2]

end MemoryHog

namespace ForkBomb

theorem iter_attempts (forkOk : Nat → Bool) (s : St) :
    (iter forkOk s).attempts = s.attempts + 1 := by
  simp only [iter]
  split <;> rfl

theorem loop_never_returns (forkOk : Nat → Bool) :
    ∀ (fuel : Nat) (s : St), (loop forkOk fuel s).1 = none := by
  intro fuel
  induction fuel with
  | zero => intro s; rfl
  | succ fuel ih => intro s; exact ih _

theorem loop_attempts (forkOk : Nat → Bool) :
    ∀ (fuel : Nat) (s : St), (loop forkOk fuel s).2.attempts = s.attempts + fuel := by
  intro fuel
  induction fuel with
  | zero => intro s; rfl
  | succ fuel ih =>
    intro s
    simp only [loop]
    rw [ih, iter_attempts]
    omega

theorem loop_failSleeps (forkOk : Nat → Bool) :
    ∀ (fuel : Nat) (s : St),
      (loop forkOk fuel s).2.failSleeps = s.failSleeps +
        ((List.range' s.attempts fuel).filter (fun i => !forkOk i)).length ∧
      (loop forkOk fuel s).2.errMsgs = s.errMsgs +
        ((List.range' s.attempts fuel).filter (fun i => !forkOk i)).length := by
  intro fuel
  induction fuel with
  | zero => intro s; exact ⟨by simp [loop], by simp [loop]⟩
  | succ fuel ih =>
    intro s
    simp only [loop, List.range']
    have hi := ih (iter forkOk s)
    rw [hi.1, hi.2, iter_attempts]
    simp only [iter]
    split
    · rename_i hok
      simp [List.filter, hok]
    · rename_i hok
      simp only [Bool.not_eq_true] at hok
      simp [List.filter, hok]
      omega

end ForkBomb

namespace NetworkTest

theorem iter_attempt (sockOk connOk : Nat → Bool) (s : St) :
    (iter sockOk connOk s).attempt = s.attempt + 1 := by
  simp only [iter]
  repeat' split
  all_goals rfl

theorem loop_never_exits (sockOk connOk : Nat → Bool) :
    ∀ (fuel : Nat) (s : St), (loop sockOk connOk fuel s).1 = none := by
  intro fuel
  induction fuel with
  | zero => intro s; rfl
  | succ fuel ih => intro s; exact ih _

theorem loop_attempt (sockOk connOk : Nat → Bool) :
    ∀ (fuel : Nat) (s : St), (loop sockOk connOk fuel s).2.attempt = s.attempt + fuel := by
  intro fuel
  induction fuel with
  | zero => intro s; rfl
  | succ fuel ih =>
    intro s
    simp only [loop]
    rw [ih, iter_attempt]
    omega

theorem loop_sleeps (sockOk connOk : Nat → Bool) :
    ∀ (fuel : Nat) (s : St),
      (loop sockOk connOk fuel s).2.sleep2s = s.sleep2s +
        ((List.range' s.attempt fuel).filter (fun i => !sockOk i)).length ∧
      (loop sockOk connOk fuel s).2.sleep3s = s.sleep3s +
        ((List.range' s.attempt fuel).filter (fun i => sockOk i)).length := by
  intro fuel
  induction fuel with
  | zero => intro s; exact ⟨by simp [loop], by simp [loop]⟩
  | succ fuel ih =>
    intro s
    simp only [loop, List.range']
    have hi := ih (iter sockOk connOk s)
    rw [hi.1, hi.2, iter_attempt]
    by_cases hok : sockOk s.attempt = true
    · have h2 : (iter sockOk connOk s).sleep2s = s.sleep2s := by
        simp only [iter, inet_pton_ok, hok, Bool.not_true]
        rw [if_neg (by simp), if_neg (by simp)]
        split <;> rfl
      have h3 : (iter sockOk connOk s).sleep3s = s.sleep3s + 1 := by
        simp only [iter, inet_pton_ok, hok, Bool.not_true]
        rw [if_neg (by simp), if_neg (by simp)]
        split <;> rfl
      rw [h2, h3]
      constructor
      · simp [List.filter, hok]
      · simp [List.filter, hok]
        omega
    · have hok2 : sockOk s.attempt = false := by
        simpa using hok
      have h2 : (iter sockOk connOk s).sleep2s = s.sleep2s + 1 := by
        simp [iter, hok2]
      have h3 : (iter sockOk connOk s).sleep3s = s.sleep3s := by
        simp [iter, hok2]
      rw [h2, h3]
      constructor
      · simp [List.filter, hok2]
        omega
      · simp [List.filter, hok2]

end NetworkTest

namespace IoStormWriter

theorem foldl_writes_const (w : Nat → Nat) (c : Nat) (l : List Nat) :
    ∀ t : Nat, (∀ i ∈ l, w (3 + i) = c) →
      l.foldl (fun t i => t + w (3 + i)) t = t + l.length * c := by
  induction l with
  | nil => intro t _; simp
  | cons i rest ih =>
    intro t h
    simp only [List.foldl_cons, List.length_cons]
    rw [h i (by simp), ih (t + c) (fun x hx => h x (by simp [hx]))]
    ring

end IoStormWriter

/-- Claim C4: when every attack-phase `fwrite` writes its full chunk, the
running total accumulated by the 150-iteration attack loop equals
`CHUNK_SIZE` times the number of iterations completed (which is always
150, since the loop has no break), and the PID-named temp file under
`/tmp` is unlinked before the program exits with code 0. -/
theorem claim_C4_io_storm_total_and_unlink (w : Nat → Nat)
    (h : ∀ i, i < 150 → w (3 + i) = IoStormWriter.CHUNK_SIZE) :
    (IoStormWriter.run true true w).total_written =
      IoStormWriter.CHUNK_SIZE * (IoStormWriter.run true true w).attackIters ∧
    (IoStormWriter.run true true w).attackIters = 150 ∧
    (IoStormWriter.run true true w).unlinked = true ∧
    (IoStormWriter.run true true w).exitCode = 0 := by
  have hrun : IoStormWriter.run true true w =
      { total_written := (List.range 150).foldl (fun t i => t + w (3 + i)) 0
        attackIters := (List.range 150).length
        unlinked := true
        errMsg := false
        exitCode := 0 } := rfl
  rw [hrun]
  rw [IoStormWriter.foldl_writes_const w IoStormWriter.CHUNK_SIZE (List.range 150) 0
    (fun i hi => h i (List.mem_range.mp hi))]
  simp [Nat.mul_comm]

/-- Claim C4, witness: every write returns the full chunk. -/
theorem claim_C4_witness :
    (IoStormWriter.run true true (fun _ => IoStormWriter.CHUNK_SIZE)).total_written =
      IoStormWriter.CHUNK_SIZE *
        (IoStormWriter.run true true (fun _ => IoStormWriter.CHUNK_SIZE)).attackIters ∧
    (IoStormWriter.run true true (fun _ => IoStormWriter.CHUNK_SIZE)).attackIters = 150 ∧
    (IoStormWriter.run true true (fun _ => IoStormWriter.CHUNK_SIZE)).unlinked = true ∧
    (IoStormWriter.run true true (fun _ => IoStormWriter.CHUNK_SIZE)).exitCode = 0 :=
  claim_C4_io_storm_total_and_unlink (fun _ => IoStormWriter.CHUNK_SIZE) (fun _ _ => rfl)

/-- Claim C7: with no arguments the CPU spike simulator's nominal
programmed duration is 23 seconds, decomposed as a 5-second benign phase
(five passes of 900 ms + 100 ms sleep around a zero-length burn), a
15-second attack phase (fifteen one-second busy-loops) and a 3-second
cooldown (three one-second sleeps), and it exits with code 0. -/
theorem claim_C7_cpu_spike_timing :
    CpuSpikeAttack.phase1_us = 5 * 1000000 ∧
    CpuSpikeAttack.phase2_us = 15 * 1000000 ∧
    CpuSpikeAttack.phase3_us = 3 * 1000000 ∧
    CpuSpikeAttack.main_total_us = 23 * 1000000 ∧
    CpuSpikeAttack.exitCode = 0 :=
  ⟨rfl, rfl, rfl, rfl, rfl⟩

/-- Claim C2, counterexample: when the first `fwrite` of the file writer
comes up short (disk exhausted), the program prints the write-failure
message to stderr and leaves the partial file on disk, but it exits with
code 0, not code 1 as claimed: the `break` falls through to `return 0`,
and code 1 is reserved for `fopen`/`malloc` setup failures. -/
theorem claim_C2_counterexample :
    FileWriter.run true true (fun _ => 0) 1 =
      some { exitCode := 0, errWriteFail := true, outputFileOnDisk := true,
             total := 0, count := 0 } ∧
    Option.map FileWriter.Result.exitCode (FileWriter.run true true (fun _ => 0) 1) ≠
      some 1 := by
  refine ⟨?_, ?_⟩ <;> decide

/-- Claim C2, amended: running the file writer until the disk is
exhausted (the `n`-th write is the first to return fewer bytes than
requested) reports a write-failure message to standard error and leaves
the partially written output file of `n` full chunks on disk, and the
process exits with code 0 (exit code 1 is only for `fopen`/`malloc`
setup failures). -/
theorem claim_C2_write_failure_exit (w : Nat → Nat) (n fuel : Nat)
    (hfull : ∀ i, i < n → w i = FileWriter.CHUNK_SIZE)
    (hshort : w n ≠ FileWriter.CHUNK_SIZE) (hfuel : n < fuel) :
    FileWriter.run true true w fuel =
      some { exitCode := 0, errWriteFail := true, outputFileOnDisk := true,
             total := n * FileWriter.CHUNK_SIZE, count := n } := by
  have hrun : FileWriter.run true true w fuel = FileWriter.loop w fuel 0 0 := rfl
  rw [hrun, FileWriter.loop_first_short w n fuel 0 0
    (fun i hi => by simpa using hfull i hi) (by simpa using hshort) hfuel]
  simp

/-- Claim C2, witness: the very first write comes up short. -/
theorem claim_C2_witness :
    FileWriter.run true true (fun _ => 0) 1 =
      some { exitCode := 0, errWriteFail := true, outputFileOnDisk := true,
             total := 0 * FileWriter.CHUNK_SIZE, count := 0 } :=
  claim_C2_write_failure_exit (fun _ => 0) 0 1 (fun i hi => absurd hi (by omega))
    (by decide) (by decide)

/-- Claim C8: the fork bomb and the network test are the retry-on-failure
generators: after a failed `fork` the fork bomb prints the diagnostics,
sleeps 1 second and retries (its loop makes exactly one fork attempt per
pass, forever); after a failed `socket` the network test sleeps 2 seconds
and retries, and a failed `connect` is reported and followed by the usual
3-second sleep before the next attempt; neither main loop ever returns,
whatever the failure pattern.  By contrast, the other unbounded
generators stop at the first failure: the file writer's write loop
returns at the first short write and the memory hog's allocation loop
returns at the first failed `malloc` (no retry). -/
theorem claim_C8_retry_policy :
    (∀ (forkOk : Nat → Bool) (fuel : Nat),
      (ForkBomb.loop forkOk fuel ForkBomb.init).1 = none ∧
      (ForkBomb.loop forkOk fuel ForkBomb.init).2.attempts = fuel ∧
      (ForkBomb.loop forkOk fuel ForkBomb.init).2.failSleeps =
        ((List.range fuel).filter (fun i => !forkOk i)).length ∧
      (ForkBomb.loop forkOk fuel ForkBomb.init).2.errMsgs =
        ((List.range fuel).filter (fun i => !forkOk i)).length) ∧
    (∀ (sockOk connOk : Nat → Bool) (fuel : Nat),
      (NetworkTest.loop sockOk connOk fuel NetworkTest.init).1 = none ∧
      (NetworkTest.loop sockOk connOk fuel NetworkTest.init).2.attempt = fuel ∧
      (NetworkTest.loop sockOk connOk fuel NetworkTest.init).2.sleep2s =
        ((List.range fuel).filter (fun i => !sockOk i)).length ∧
      (NetworkTest.loop sockOk connOk fuel NetworkTest.init).2.sleep3s =
        ((List.range fuel).filter (fun i => sockOk i)).length) ∧
    (∀ (w : Nat → Nat) (n fuel : Nat), (∀ i, i < n → w i = FileWriter.CHUNK_SIZE) →
      w n ≠ FileWriter.CHUNK_SIZE → n < fuel →
      (FileWriter.run true true w fuel).isSome = true) ∧
    (∀ (ok : Nat → Bool) (n fuel : Nat), (∀ i, i < n → ok i = true) →
      ok n = false → n < fuel →
      MemoryHog.run ok fuel =
        some { exitCode := 1, errMsg := true,
               total := n * MemoryHog.CHUNK_SIZE, count := n }) := by
  refine ⟨?_, ?_, ?_, ?_⟩
  · intro forkOk fuel
    refine ⟨ForkBomb.loop_never_returns forkOk fuel ForkBomb.init, ?_, ?_, ?_⟩
    · rw [ForkBomb.loop_attempts]
      simp [ForkBomb.init]
    · rw [(ForkBomb.loop_failSleeps forkOk fuel ForkBomb.init).1]
      simp [ForkBomb.init, List.range_eq_range']
    · rw [(ForkBomb.loop_failSleeps forkOk fuel ForkBomb.init).2]
      simp [ForkBomb.init, List.range_eq_range']
  · intro sockOk connOk fuel
    refine ⟨NetworkTest.loop_never_exits sockOk connOk fuel NetworkTest.init, ?_, ?_, ?_⟩
    · rw [NetworkTest.loop_attempt]
      simp [NetworkTest.init]
    · rw [(NetworkTest.loop_sleeps sockOk connOk fuel NetworkTest.init).1]
      simp [NetworkTest.init, List.range_eq_range']
    · rw [(NetworkTest.loop_sleeps sockOk connOk fuel NetworkTest.init).2]
      simp [NetworkTest.init, List.range_eq_range']
  · intro w n fuel hfull hshort hfuel
    have hrun : FileWriter.run true true w fuel = FileWriter.loop w fuel 0 0 := rfl
    rw [hrun, FileWriter.loop_first_short w n fuel 0 0
      (fun i hi => by simpa using hfull i hi) (by simpa using hshort) hfuel]
    rfl
  · intro ok n fuel hfull hfail hfuel
    have hrun : MemoryHog.run ok fuel = MemoryHog.loop ok fuel 0 0 := rfl
    rw [hrun, MemoryHog.loop_first_failure ok n fuel 0 0
      (fun i hi => by simpa using hfull i hi) (by simpa using hfail) hfuel]
    simp

/-- Claim C8, witness: four attempts of an always-failing fork bomb, three
attempts of a network test whose socket calls always fail, a file writer
whose first write is short, and a memory hog whose first allocation
fails. -/
theorem claim_C8_witness :
    ((ForkBomb.loop (fun _ => false) 4 ForkBomb.init).1 = none ∧
      (ForkBomb.loop (fun _ => false) 4 ForkBomb.init).2.attempts = 4 ∧
      (ForkBomb.loop (fun _ => false) 4 ForkBomb.init).2.failSleeps =
        ((List.range 4).filter (fun i => !(fun _ => false) i)).length ∧
      (ForkBomb.loop (fun _ => false) 4 ForkBomb.init).2.errMsgs =
        ((List.range 4).filter (fun i => !(fun _ => false) i)).length) ∧
    ((NetworkTest.loop (fun _ => false) (fun _ => false) 3 NetworkTest.init).1 = none ∧
      (NetworkTest.loop (fun _ => false) (fun _ => false) 3 NetworkTest.init).2.attempt = 3 ∧
      (NetworkTest.loop (fun _ => false) (fun _ => false) 3 NetworkTest.init).2.sleep2s =
        ((List.range 3).filter (fun i => !(fun _ => false) i)).length ∧
      (NetworkTest.loop (fun _ => false) (fun _ => false) 3 NetworkTest.init).2.sleep3s =
        ((List.range 3).filter (fun i => (fun _ => false) i)).length) ∧
    (FileWriter.run true true (fun _ => 0) 1).isSome = true ∧
    MemoryHog.run (fun _ => false) 1 =
      some { exitCode := 1, errMsg := true,
             total := 0 * MemoryHog.CHUNK_SIZE, count := 0 } :=
  ⟨claim_C8_retry_policy.1 (fun _ => false) 4,
   claim_C8_retry_policy.2.1 (fun _ => false) (fun _ => false) 3,
   claim_C8_retry_policy.2.2.1 (fun _ => 0) 0 1 (fun i hi => absurd hi (by omega))
     (by decide) (by decide),
   claim_C8_retry_policy.2.2.2 (fun _ => false) 0 1 (fun i hi => absurd hi (by omega))
     rfl (by decide)⟩
